import Mathlib

/-!
Shallow embedding of `src/TaskManager/jira_sla.py` (the reconciliation and
content-merge engine of the trilium-addons TaskManager `jira_sla` command).

Modelling conventions:
* Python `datetime` values are modelled at minute granularity (the finest
  resolution any formatting in the program uses is `"%Y-%m-%d %H:%M"`;
  `isoformat` is rendered with a fixed `:00` seconds field, which no claim
  inspects).
* Python strings are Lean `String`s; Python slicing `s[:n]` slices by code
  points, modelled as `String.mk (s.data.take n)`.
* A Trilium note's HTML content is modelled through the structured-document
  abstraction: a list of regions, where a region is either opaque markup
  (`Region.other`) or the `<ul class="notes-list">` element
  (`Region.notes`, holding its `<li>` entries as strings).  BeautifulSoup's
  `find("ul", class="notes-list")` / `append` / `str(soup)` round trip is
  modelled by locating the first `Region.notes` in the list.
* `str(task.content).encode("ascii", "ignore")` drops non-ASCII code points;
  modelled by `asciiStr` applied to every region before the merge.
* The Trilium store visible to `publish` is the list of notes under the
  `#taskTodoRoot` note plus a count of `flush()` calls.
-/

namespace JiraSLA

/-- A timestamp at minute granularity (see module header). -/
structure DateTime where
  year : Nat
  month : Nat
  day : Nat
  hour : Nat
  minute : Nat
deriving DecidableEq, Repr

/-- Zero-pad a number to two digits, as `strftime` does for `%m %d %H %M`. -/
def pad2 (n : Nat) : String :=
  if n < 10 then ("0") ++ toString n else toString n

/-- Zero-pad a year to four digits, as `strftime` does for `%Y`. -/
def pad4 (n : Nat) : String :=
  if n < 10 then ("000") ++ toString n
  else if n < 100 then ("00") ++ toString n
  else if n < 1000 then ("0") ++ toString n
  else toString n

/-- `LABEL_DATE = "%Y-%m-%d"` (jira_sla.py line 43). -/
def fmtLabelDate (d : DateTime) : String :=
  pad4 d.year ++ ("-") ++ pad2 d.month ++ ("-") ++ pad2 d.day

/-- `strftime("%Y-%m-%d %H:%M")` used for the dated marker (lines 292-295). -/
def fmtMinute (d : DateTime) : String :=
  fmtLabelDate d ++ (" ") ++ pad2 d.hour ++ (":") ++ pad2 d.minute

/-- `datetime.isoformat()` at minute granularity (seconds rendered `:00`). -/
def isoFormat (d : DateTime) : String :=
  fmtLabelDate d ++ ("T") ++ pad2 d.hour ++ (":") ++ pad2 d.minute ++ (":00")

/-- Python slicing `s[:n]` (by code points). -/
def strSlice (s : String) (n : Nat) : String :=
  String.mk (s.data.take n)

/-- The `Ticket` dataclass (lines 61-82).  `sortIndex` and `title` are the
`init=False` fields computed by `__post_init__`. -/
structure Ticket where
  assignee : Option String
  created : DateTime
  key : String
  labels : List String
  priority : String
  status : String
  summary : String
  updated : DateTime
  url : String
  sortIndex : DateTime
  title : String
deriving Repr

/-- Construct a `Ticket`, running `__post_init__` (lines 77-82): the sort
index is the creation time and the title is the summary, truncated to 42
code points plus `"..."` when the summary is longer than 45. -/
def mkTicket (assignee : Option String) (created : DateTime) (key : String)
    (labels : List String) (priority status summary : String)
    (updated : DateTime) (url : String) : Ticket :=
  { assignee := assignee
    created := created
    key := key
    labels := labels
    priority := priority
    status := status
    summary := summary
    updated := updated
    url := url
    sortIndex := created
    title := if summary.length > 45 then strSlice summary 42 ++ ("...") else summary }

/-- The fields of a fetched Jira issue that `_new_ticket` (lines 414-430)
reads. -/
structure Issue where
  assigneeDisplayName : Option String
  created : DateTime
  key : String
  labels : List String
  priorityName : String
  statusName : String
  summary : String
  updated : DateTime
  permalink : String
deriving Repr

/-- `_new_ticket` (lines 414-430): map Jira fields to Ticket fields. -/
def newTicket (bug : Issue) : Ticket :=
  mkTicket bug.assigneeDisplayName bug.created bug.key bug.labels
    bug.priorityName bug.statusName bug.summary bug.updated bug.permalink

/-- The accumulation loop of `_query_jira` (lines 432-435): append a ticket
per fetched issue, in fetch order. -/
def queryLoop (acc : List Ticket) : List Issue → List Ticket
  | [] => acc
  | i :: rest => queryLoop (acc ++ [newTicket i]) rest

/-- `_query_jira` on the live (non-dry-run) path, as a function of the issue
list the Jira queries returned: `tickets = []; for issue in issues:
tickets.append(_new_ticket(issue)); return tickets`. -/
def queryJiraLive (issues : List Issue) : List Ticket :=
  queryLoop [] issues

/-- The lorem-ipsum summary of the dry-run test tickets (lines 348-355). -/
def loremSummary : String :=
  ("Lorem ipsum dolor sit amet, consectetur adipiscing elit, sed do eiusmod tempor")
    ++ (" incididunt ut labore et dolore magna aliqua. Ut enim ad minim veniam, quis")
    ++ (" nostrud exercitation ullamco laboris nisi ut aliquip ex ea commodo consequat.")
    ++ (" Duis aute irure dolor in reprehenderit in voluptate velit esse cillum dolore")
    ++ (" eu fugiat nulla pariatur. Excepteur sint occaecat cupidatat non proident,")
    ++ (" sunt in culpa qui officia deserunt mollit anim id est laborum.")

/-- Python `s[::-1]` (line 377): reverse by code points. -/
def strReverse (s : String) : String :=
  String.mk s.data.reverse

/-- `_query_jira` on the dry-run path (lines 345-392): three synthetic test
tickets, created "now". -/
def dryRunTickets (now : DateTime) : List Ticket :=
  [ mkTicket (some ("tester")) now ("TEST-1") [("triaged"), ("testing")]
      ("Blocker") ("Testing") loremSummary now
      ("https://issues.example.com/TEST-1"),
    mkTicket (some ("developer")) now ("TEST-2") [("triaged")]
      ("Critical") ("In Progress") (strReverse loremSummary) now
      ("https://issues.example.com/TEST-2"),
    mkTicket (some ("user")) now ("TEST-3") [("triaged")]
      ("Normal") ("Closed") ("This is a test ticket.") now
      ("https://issues.example.com/TEST-3") ]

/-- A region of a note's HTML content: either opaque markup, or the
`<ul class="notes-list">` element with its `<li>` entries. -/
inductive Region where
  | other (html : String)
  | notes (entries : List String)
deriving DecidableEq, Repr

/-- Whether a region is opaque markup (not the notes list). -/
def Region.isOther : Region → Bool
  | .other _ => true
  | .notes _ => false

/-- `encode("ascii", "ignore")`: drop code points outside ASCII. -/
def asciiStr (s : String) : String :=
  String.mk (s.data.filter (fun c => c.toNat < 128))

/-- ASCII-normalize one region. -/
def normalizeRegion : Region → Region
  | .other h => .other (asciiStr h)
  | .notes es => .notes (es.map asciiStr)

/-- ASCII-normalize a whole document (line 286). -/
def normalizeDoc (doc : List Region) : List Region :=
  doc.map normalizeRegion

/-- Whether the document contains a notes-list region
(`soup.find("ul", class="notes-list")` succeeds). -/
def hasNotes : List Region → Bool
  | [] => false
  | .notes _ :: _ => true
  | .other _ :: rest => hasNotes rest

/-- Append an entry to the first notes-list region of the document
(`unbulleted_list.append(list_item)`, line 301). -/
def appendEntry (e : String) : List Region → List Region
  | [] => []
  | .notes es :: rest => .notes (es ++ [e]) :: rest
  | .other h :: rest => .other h :: appendEntry e rest

/-- The content merge (lines 289-311): append the marker entry to the
existing notes list when one is found, otherwise create a new notes list
holding just that entry and append it at the end of the document. -/
def mergeContent (doc : List Region) (e : String) : List Region :=
  if hasNotes doc then appendEntry e doc else doc ++ [Region.notes [e]]

/-- The dated marker text (lines 292-295). -/
def entryText (now : DateTime) : String :=
  fmtMinute now ++ (" Update from Jira")

/-- The full Update-path content transformation: ASCII-normalize the stored
content (line 286), then merge in the dated marker (lines 289-311). -/
def mergeTaskContent (now : DateTime) (doc : List Region) : List Region :=
  mergeContent (normalizeDoc doc) (entryText now)

/-- The non-notes-list regions of a document, in order. -/
def others : List Region → List String
  | [] => []
  | .other h :: rest => h :: others rest
  | .notes _ :: rest => others rest

/-- Total number of `<li>` entries across all notes-list regions. -/
def totalEntries : List Region → Nat
  | [] => 0
  | .other _ :: rest => totalEntries rest
  | .notes es :: rest => es.length + totalEntries rest

/-- A Trilium note as `publish` sees it: a title, HTML content, single-valued
promoted attributes (`task["name"] = value`), the multi-valued `tag` label,
whether the `#task` template label applies, the `#doneDate` label if any, and
whether the note was cloned under the day note (`task ^= (today, "TODO")`). -/
structure Note where
  title : String
  content : List Region
  attrs : List (String × String)
  tags : List String
  isTask : Bool
  doneDate : Option String
  inToday : Bool
deriving DecidableEq, Repr

/-- Write a single-valued attribute: replace its first occurrence, or append
it (Trilium promoted attributes are last-write-wins). -/
def upsertAttr : List (String × String) → String → String → List (String × String)
  | [], k, v => [(k, v)]
  | (k0, v0) :: rest, k, v =>
      if k0 = k then (k, v) :: rest else (k0, v0) :: upsertAttr rest k v

/-- Read a single-valued attribute. -/
def lookupAttr : List (String × String) → String → Option String
  | [], _ => none
  | (k0, v0) :: rest, k => if k0 = k then some v0 else lookupAttr rest k

/-- `task["name"] = value`. -/
def setAttr (n : Note) (k v : String) : Note :=
  { n with attrs := upsertAttr n.attrs k v }

/-- `task["name"]`. -/
def getAttr (n : Note) (k : String) : Option String :=
  lookupAttr n.attrs k

/-- The search predicate `#task #!doneDate #jiraKey="<key>"` (lines 248-250):
a task note, not yet done, carrying the key as its `jiraKey` attribute. -/
def isCandidate (key : String) (n : Note) : Bool :=
  n.isTask && n.doneDate.isNone && decide (getAttr n ("jiraKey") = some key)

/-- The Trilium state `publish` can observe: the notes under `#taskTodoRoot`
and how often `flush()` committed pending mutations. -/
structure Store where
  notes : List Note
  flushes : Nat
deriving DecidableEq, Repr

/-- `trilium.search(f..., ancestor_note=task_root)` (lines 248-250). -/
def findCandidates (s : Store) (key : String) : List Note :=
  s.notes.filter (isCandidate key)

/-- The `html_template` (lines 225-237) rendered with a ticket's fields
(lines 258-269), as a structured document: one opaque markup region (the
heading and summary table), then the empty notes list
`<ul class="notes-list"><li></li></ul>`. -/
def renderTemplate (now : DateTime) (t : Ticket) : List Region :=
  [ Region.other
      (("<h2><a href=\"") ++ t.url ++ ("\">") ++ t.key ++ ("</a></h2>")
        ++ ("<h3>Summary</h3>")
        ++ ("<table>")
        ++ ("  <tr> <td colspan=\"2\">") ++ t.summary ++ ("</td> </tr>")
        ++ ("  <tr> <td style=\"text-align:right;\"> <strong>Initial Priority:</strong></td> <td>")
        ++ t.priority ++ ("</td> </tr>")
        ++ ("  <tr> <td style=\"text-align:right;\"> <strong>Created:</strong></td> <td>")
        ++ isoFormat t.created ++ ("</td> </tr>")
        ++ ("  <tr> <td style=\"text-align:right;\"> <strong>Jira Label(s):</strong></td> <td>")
        ++ String.intercalate (", ") t.labels ++ ("</td> </tr>")
        ++ ("  <tr> <td style=\"text-align:right;\"> <strong>Mark:</strong></td> <td>")
        ++ isoFormat now ++ ("</td> </tr>")
        ++ ("</table>")
        ++ ("<h3>Notes</h3>")),
    Region.notes [("")] ]

/-- The Create path's new task note (lines 255-275): titled
`"{key}: {title}"`, content from the template, the four creation-time
attributes, the `tag=jira` label, and the `#task` template. -/
def createTask (now : DateTime) (t : Ticket) : Note :=
  { title := t.key ++ (": ") ++ t.title
    content := renderTemplate now t
    attrs := [(("iconClass"), ("bx bx-bug")),
              (("jiraKey"), t.key),
              (("location"), ("work")),
              (("todoDate"), fmtLabelDate t.created)]
    tags := [("jira")]
    isTask := true
    doneDate := none
    inToday := false }

/-- `task ^= (today, "TODO")` (line 279): clone the task under today's note. -/
def cloneToToday (n : Note) : Note :=
  { n with inToday := true }

/-- Code-point lexicographic comparison of character lists, matching
Python's string ordering. -/
def charsLe : List Char → List Char → Bool
  | [], _ => true
  | _ :: _, [] => false
  | a :: as, b :: bs =>
      if a.toNat < b.toNat then true
      else if b.toNat < a.toNat then false
      else charsLe as bs

/-- Code-point lexicographic comparison of strings. -/
def strLe (x y : String) : Bool :=
  charsLe x.data y.data

/-- Insertion of a string into a lexicographically sorted list. -/
def insertSorted (x : String) : List String → List String
  | [] => [x]
  | y :: ys => if strLe x y then x :: y :: ys else y :: insertSorted x ys

/-- Python `sorted` on a list of strings (insertion sort; code-point
lexicographic order, matching Python's string comparison). -/
def sortStrings : List String → List String
  | [] => []
  | x :: xs => insertSorted x (sortStrings xs)

/-- `ticket.assignee or "N/A"` (line 321): `None` and the empty string are
both falsy in Python, so both render as the sentinel. -/
def assigneeOrNA : Option String → String
  | none => ("N/A")
  | some a => if a = ("") then ("N/A") else a

/-- The shared metadata block (lines 320-325), applied whether the task is
new or existing: rewrite the five `jira*` attributes. -/
def sharedAttrUpdate (t : Ticket) (n : Note) : Note :=
  setAttr
    (setAttr
      (setAttr
        (setAttr
          (setAttr n ("jiraAssignee") (assigneeOrNA t.assignee))
          ("jiraLabels") (String.intercalate (":") (sortStrings t.labels)))
        ("jiraPriority") t.priority)
      ("jiraStatus") t.status)
    ("jiraUpdated") (fmtLabelDate t.updated)

/-- The Update path's effect on the matched note (lines 285-311): replace the
content with the merged document. -/
def mergeNote (now : DateTime) (n : Note) : Note :=
  { n with content := mergeTaskContent now n.content }

/-- Apply `f` to the first note satisfying `p` (the code mutates
`candidates[0]`, the first search result, in place). -/
def updateFirst (p : Note → Bool) (f : Note → Note) : List Note → List Note
  | [] => []
  | n :: ns => if p n then f n :: ns else n :: updateFirst p f ns

/-- One iteration of the `publish` loop (lines 247-327) for one ticket:
match on the number of candidates — 0 creates (attach under the root, flush,
clone to today, then shared metadata and a second flush), 1 updates in place
(content merge, then shared metadata and one flush), more than one aborts
the run with the offending key. -/
def publishTicket (now : DateTime) (s : Store) (t : Ticket) : Except String Store :=
  match (findCandidates s t.key).length with
  | 0 =>
      { notes := s.notes ++ [sharedAttrUpdate t (cloneToToday (createTask now t))]
        flushes := s.flushes + 2 : Store }
      |> Except.ok
  | 1 =>
      { notes := updateFirst (isCandidate t.key)
                   (fun n => sharedAttrUpdate t (mergeNote now n)) s.notes
        flushes := s.flushes + 1 : Store }
      |> Except.ok
  | _ => Except.error (("Multiple Tasks matched for ") ++ t.key)

/-- The `publish` loop over the whole ticket list: `typer.Abort()` stops the
run, leaving the store as the previous flushes committed it (no rollback)
and reporting the error message. -/
def runPublish (now : DateTime) : Store → List Ticket → Store × Option String
  | s, [] => (s, none)
  | s, t :: ts =>
      match publishTicket now s t with
      | .ok s1 => runPublish now s1 ts
      | .error e => (s, some e)

/-- The `publish` command: `tickets = _query_jira(ctx)` — the dry-run flag
only switches the ticket source to the synthetic test tickets (lines
344-392); the reconciliation loop runs unconditionally either way. -/
def publishCmd (now : DateTime) (dryRun : Bool) (issues : List Issue)
    (s : Store) : Store × Option String :=
  runPublish now s (if dryRun then dryRunTickets now else queryJiraLive issues)

/-- Ascending comparison of timestamps (lexicographic on the fields). -/
def dtLe (a b : DateTime) : Bool :=
  if a.year ≠ b.year then a.year < b.year
  else if a.month ≠ b.month then a.month < b.month
  else if a.day ≠ b.day then a.day < b.day
  else if a.hour ≠ b.hour then a.hour < b.hour
  else decide (a.minute ≤ b.minute)

/-- Modelled from the spec: "the sequence of tickets handed to the Reconciler
is sorted by created, ascending" — the sortedness predicate the Run Driver
claim asserts of the ticket list. -/
def specSortedByCreated : List Ticket → Bool
  | [] => true
  | [_] => true
  | a :: b :: rest => dtLe a.created b.created && specSortedByCreated (b :: rest)

/-! ### Attribute lemmas -/

theorem lookupAttr_upsert_self (l : List (String × String)) (k v : String) :
    lookupAttr (upsertAttr l k v) k = some v := by
  induction l with
  | nil => simp [upsertAttr, lookupAttr]
  | cons hd tl ih =>
      by_cases h : hd.1 = k
      · simp [upsertAttr, lookupAttr, h]
      · simp [upsertAttr, lookupAttr, h, ih]

theorem lookupAttr_upsert_ne (l : List (String × String)) (k k2 v : String)
    (h : k ≠ k2) : lookupAttr (upsertAttr l k v) k2 = lookupAttr l k2 := by
  induction l with
  | nil => simp [upsertAttr, lookupAttr, h]
  | cons hd tl ih =>
      by_cases h0 : hd.1 = k
      · have h1 : hd.1 ≠ k2 := h0 ▸ h
        simp [upsertAttr, lookupAttr, h0, h, h1]
      · simp [upsertAttr, lookupAttr, h0, ih]

theorem getAttr_setAttr_self (n : Note) (k v : String) :
    getAttr (setAttr n k v) k = some v :=
  lookupAttr_upsert_self n.attrs k v

theorem getAttr_setAttr_ne (n : Note) (k k2 v : String) (h : k ≠ k2) :
    getAttr (setAttr n k v) k2 = getAttr n k2 :=
  lookupAttr_upsert_ne n.attrs k k2 v h

theorem shared_jiraStatus (t : Ticket) (n : Note) :
    getAttr (sharedAttrUpdate t n) ("jiraStatus") = some t.status := by
  unfold sharedAttrUpdate
  rw [getAttr_setAttr_ne _ _ _ _ (by decide), getAttr_setAttr_self]

theorem shared_jiraPriority (t : Ticket) (n : Note) :
    getAttr (sharedAttrUpdate t n) ("jiraPriority") = some t.priority := by
  unfold sharedAttrUpdate
  rw [getAttr_setAttr_ne _ _ _ _ (by decide), getAttr_setAttr_ne _ _ _ _ (by decide),
    getAttr_setAttr_self]

theorem shared_jiraLabels (t : Ticket) (n : Note) :
    getAttr (sharedAttrUpdate t n) ("jiraLabels") =
      some (String.intercalate (":") (sortStrings t.labels)) := by
  unfold sharedAttrUpdate
  rw [getAttr_setAttr_ne _ _ _ _ (by decide), getAttr_setAttr_ne _ _ _ _ (by decide),
    getAttr_setAttr_ne _ _ _ _ (by decide), getAttr_setAttr_self]

theorem shared_jiraAssignee (t : Ticket) (n : Note) :
    getAttr (sharedAttrUpdate t n) ("jiraAssignee") = some (assigneeOrNA t.assignee) := by
  unfold sharedAttrUpdate
  rw [getAttr_setAttr_ne _ _ _ _ (by decide), getAttr_setAttr_ne _ _ _ _ (by decide),
    getAttr_setAttr_ne _ _ _ _ (by decide), getAttr_setAttr_ne _ _ _ _ (by decide),
    getAttr_setAttr_self]

theorem shared_jiraUpdated (t : Ticket) (n : Note) :
    getAttr (sharedAttrUpdate t n) ("jiraUpdated") = some (fmtLabelDate t.updated) :=
  getAttr_setAttr_self _ _ _

theorem shared_jiraKey (t : Ticket) (n : Note) :
    getAttr (sharedAttrUpdate t n) ("jiraKey") = getAttr n ("jiraKey") := by
  unfold sharedAttrUpdate
  rw [getAttr_setAttr_ne _ _ _ _ (by decide), getAttr_setAttr_ne _ _ _ _ (by decide),
    getAttr_setAttr_ne _ _ _ _ (by decide), getAttr_setAttr_ne _ _ _ _ (by decide),
    getAttr_setAttr_ne _ _ _ _ (by decide)]

theorem shared_title (t : Ticket) (n : Note) :
    (sharedAttrUpdate t n).title = n.title := rfl

theorem shared_isTask (t : Ticket) (n : Note) :
    (sharedAttrUpdate t n).isTask = n.isTask := rfl

theorem shared_doneDate (t : Ticket) (n : Note) :
    (sharedAttrUpdate t n).doneDate = n.doneDate := rfl

theorem mergeNote_frame (now : DateTime) (n : Note) :
    (mergeNote now n).title = n.title ∧ (mergeNote now n).attrs = n.attrs ∧
    (mergeNote now n).isTask = n.isTask ∧ (mergeNote now n).doneDate = n.doneDate :=
  ⟨rfl, rfl, rfl, rfl⟩

theorem isCandidate_shared (k : String) (t : Ticket) (n : Note) :
    isCandidate k (sharedAttrUpdate t n) = isCandidate k n := by
  unfold isCandidate getAttr
  rw [show (sharedAttrUpdate t n).isTask = n.isTask from rfl,
    show (sharedAttrUpdate t n).doneDate = n.doneDate from rfl,
    show lookupAttr (sharedAttrUpdate t n).attrs ("jiraKey") =
      getAttr (sharedAttrUpdate t n) ("jiraKey") from rfl,
    shared_jiraKey]
  rfl

theorem isCandidate_mergeNote (k : String) (now : DateTime) (n : Note) :
    isCandidate k (mergeNote now n) = isCandidate k n := rfl

/-! ### `updateFirst` lemmas -/

theorem updateFirst_map_title (p : Note → Bool) (f : Note → Note)
    (hf : ∀ n, (f n).title = n.title) :
    ∀ l : List Note, (updateFirst p f l).map Note.title = l.map Note.title := by
  intro l
  induction l with
  | nil => rfl
  | cons n ns ih =>
      by_cases h : p n
      · simp [updateFirst, h, hf]
      · simp [updateFirst, h, ih]

theorem updateFirst_length (p : Note → Bool) (f : Note → Note) :
    ∀ l : List Note, (updateFirst p f l).length = l.length := by
  intro l
  induction l with
  | nil => rfl
  | cons n ns ih =>
      by_cases h : p n
      · simp [updateFirst, h]
      · simp [updateFirst, h, ih]

theorem updateFirst_filter_length (p : Note → Bool) (f : Note → Note)
    (q : Note → Bool) (hq : ∀ n, q (f n) = q n) :
    ∀ l : List Note,
      ((updateFirst p f l).filter q).length = (l.filter q).length := by
  intro l
  induction l with
  | nil => rfl
  | cons n ns ih =>
      by_cases h : p n
      · by_cases h2 : q n
        · simp [updateFirst, h, List.filter_cons, hq, h2]
        · simp [updateFirst, h, List.filter_cons, hq, h2]
      · by_cases h2 : q n
        · simp [updateFirst, h, List.filter_cons, h2, ih]
        · simp [updateFirst, h, List.filter_cons, h2, ih]

theorem updateFirst_exists (p : Note → Bool) (f : Note → Note) :
    ∀ l : List Note, l.filter p ≠ [] →
      ∃ n ∈ l, p n = true ∧ f n ∈ updateFirst p f l := by
  intro l
  induction l with
  | nil => intro h; simp [List.filter] at h
  | cons n ns ih =>
      intro h
      by_cases h0 : p n
      · exact ⟨n, List.mem_cons_self n ns, h0, by simp [updateFirst, h0]⟩
      · have h1 : ns.filter p ≠ [] := by
          simpa [List.filter_cons, h0] using h
        obtain ⟨m, hm, hpm, hfm⟩ := ih h1
        exact ⟨m, List.mem_cons_of_mem n hm, hpm,
          by simp [updateFirst, h0, hfm]⟩

/-! ### `publishTicket` and `runPublish` shape lemmas -/

theorem publishTicket_create (now : DateTime) (s : Store) (t : Ticket)
    (h : findCandidates s t.key = []) :
    publishTicket now s t = Except.ok
      { notes := s.notes ++ [sharedAttrUpdate t (cloneToToday (createTask now t))]
        flushes := s.flushes + 2 : Store } := by
  simp [publishTicket, h]

theorem publishTicket_update (now : DateTime) (s : Store) (t : Ticket)
    (h : (findCandidates s t.key).length = 1) :
    publishTicket now s t = Except.ok
      { notes := updateFirst (isCandidate t.key)
          (fun n => sharedAttrUpdate t (mergeNote now n)) s.notes
        flushes := s.flushes + 1 : Store } := by
  simp [publishTicket, h]

theorem publishTicket_conflict (now : DateTime) (s : Store) (t : Ticket)
    (h : 1 < (findCandidates s t.key).length) :
    publishTicket now s t = Except.error (("Multiple Tasks matched for ") ++ t.key) := by
  obtain ⟨m, hm⟩ : ∃ m, (findCandidates s t.key).length = m + 2 :=
    ⟨(findCandidates s t.key).length - 2, by omega⟩
  simp [publishTicket, hm]

theorem runPublish_append (now : DateTime) (s : Store) (pre rest : List Ticket) :
    runPublish now s (pre ++ rest) =
      match runPublish now s pre with
      | (s1, none) => runPublish now s1 rest
      | (s1, some e) => (s1, some e) := by
  induction pre generalizing s with
  | nil => simp [runPublish]
  | cons t ts ih =>
      simp only [List.cons_append, runPublish]
      cases publishTicket now s t with
      | ok s1 => simpa using ih s1
      | error e => rfl

/-! ### Candidate bookkeeping for the Create path -/

theorem createTask_jiraKey (now : DateTime) (t : Ticket) :
    getAttr (createTask now t) ("jiraKey") = some t.key := by
  simp [createTask, getAttr, lookupAttr]

theorem newTask_isCandidate_self (now : DateTime) (t : Ticket) :
    isCandidate t.key (sharedAttrUpdate t (cloneToToday (createTask now t))) = true := by
  rw [isCandidate_shared]
  simp [isCandidate, cloneToToday, createTask, getAttr, lookupAttr]

theorem newTask_isCandidate_ne (now : DateTime) (t : Ticket) (k : String)
    (h : k ≠ t.key) :
    isCandidate k (sharedAttrUpdate t (cloneToToday (createTask now t))) = false := by
  rw [isCandidate_shared]
  have h2 : t.key ≠ k := Ne.symm h
  simp [isCandidate, cloneToToday, createTask, getAttr, lookupAttr, h2]

theorem findCandidates_snoc (s : Store) (fl : Nat) (m : Note) (k : String) :
    findCandidates ⟨s.notes ++ [m], fl⟩ k =
      findCandidates s k ++ (if isCandidate k m then [m] else []) := by
  simp [findCandidates, List.filter_append, List.filter_cons]

/-! ### Content-merge lemmas -/

theorem others_append (a b : List Region) :
    others (a ++ b) = others a ++ others b := by
  induction a with
  | nil => rfl
  | cons r rest ih => cases r <;> simp [others, ih]

theorem totalEntries_append (a b : List Region) :
    totalEntries (a ++ b) = totalEntries a + totalEntries b := by
  induction a with
  | nil => simp [totalEntries]
  | cons r rest ih =>
      cases r with
      | other s => simp [totalEntries, ih]
      | notes es => simp [totalEntries, ih]; omega

theorem others_appendEntry (e : String) (doc : List Region) :
    others (appendEntry e doc) = others doc := by
  induction doc with
  | nil => rfl
  | cons r rest ih => cases r <;> simp [appendEntry, others, ih]

theorem totalEntries_appendEntry (e : String) (doc : List Region)
    (h : hasNotes doc = true) :
    totalEntries (appendEntry e doc) = totalEntries doc + 1 := by
  induction doc with
  | nil => simp [hasNotes] at h
  | cons r rest ih =>
      cases r with
      | other s =>
          have h2 : hasNotes rest = true := by simpa [hasNotes] using h
          simp [appendEntry, totalEntries, ih h2]
      | notes es => simp [appendEntry, totalEntries]; omega

theorem others_normalize (doc : List Region) :
    others (normalizeDoc doc) = (others doc).map asciiStr := by
  induction doc with
  | nil => rfl
  | cons r rest ih =>
      cases r with
      | other s => simpa [normalizeDoc, normalizeRegion, others] using ih
      | notes es => simpa [normalizeDoc, normalizeRegion, others] using ih

theorem totalEntries_normalize (doc : List Region) :
    totalEntries (normalizeDoc doc) = totalEntries doc := by
  induction doc with
  | nil => rfl
  | cons r rest ih =>
      cases r with
      | other s => simpa [normalizeDoc, normalizeRegion, totalEntries] using ih
      | notes es => simpa [normalizeDoc, normalizeRegion, totalEntries] using ih

theorem totalEntries_merge (doc : List Region) (e : String) :
    totalEntries (mergeContent doc e) = totalEntries doc + 1 := by
  unfold mergeContent
  by_cases h : hasNotes doc
  · simp [h, totalEntries_appendEntry e doc h]
  · simp [h, totalEntries_append, totalEntries]

theorem others_merge (doc : List Region) (e : String) :
    others (mergeContent doc e) = others doc := by
  unfold mergeContent
  by_cases h : hasNotes doc
  · simp [h, others_appendEntry]
  · simp [h, others_append, others]

theorem hasNotes_mid (pre rest : List Region) (es : List String) :
    hasNotes (pre ++ Region.notes es :: rest) = true := by
  induction pre with
  | nil => rfl
  | cons r p ih => cases r <;> simp [hasNotes, ih]

theorem appendEntry_mid (e : String) (pre rest : List Region) (es : List String)
    (h : ∀ r ∈ pre, r.isOther = true) :
    appendEntry e (pre ++ Region.notes es :: rest) =
      pre ++ Region.notes (es ++ [e]) :: rest := by
  induction pre with
  | nil => rfl
  | cons r p ih =>
      cases r with
      | other s =>
          have ih2 := ih (fun x hx => h x (List.mem_cons_of_mem _ hx))
          simp [appendEntry, ih2]
      | notes l =>
          have h2 := h (Region.notes l) (List.mem_cons_self _ _)
          simp [Region.isOther] at h2

/-! ### Claim theorems -/

/-- C1: for content with N non-annotation regions, the Update-path content
merge leaves those same N regions present, in the same order, unchanged
apart from the ASCII encoding normalization, and the notes list gains
exactly one new entry. -/
theorem C1_content_preservation (now : DateTime) (doc : List Region) :
    others (mergeTaskContent now doc) = (others doc).map asciiStr ∧
    (others (mergeTaskContent now doc)).length = (others doc).length ∧
    totalEntries (mergeTaskContent now doc) = totalEntries doc + 1 := by
  refine ⟨?_, ?_, ?_⟩
  · rw [mergeTaskContent, others_merge, others_normalize]
  · rw [mergeTaskContent, others_merge, others_normalize, List.length_map]
  · rw [mergeTaskContent, totalEntries_merge, totalEntries_normalize]

/-- C4: the merge entry reads `"YYYY-MM-DD HH:MM Update from Jira"`; it is
appended to the existing notes list when one exists, and otherwise a new
notes list holding exactly that entry is appended at the end of the
document, never mid-document. -/
theorem C4_annotation_append (now : DateTime) (doc pre rest : List Region)
    (es : List String) :
    entryText now = fmtMinute now ++ (" Update from Jira") ∧
    (hasNotes doc = false →
      mergeContent doc (entryText now) = doc ++ [Region.notes [entryText now]]) ∧
    (doc = pre ++ Region.notes es :: rest → (∀ r ∈ pre, r.isOther = true) →
      mergeContent doc (entryText now) =
        pre ++ Region.notes (es ++ [entryText now]) :: rest) := by
  refine ⟨rfl, ?_, ?_⟩
  · intro h
    simp [mergeContent, h]
  · intro hdoc hpre
    subst hdoc
    simp [mergeContent, hasNotes_mid, appendEntry_mid _ _ _ _ hpre]

/-- C4 witness: a document with one opaque region before the notes list,
merged at a concrete time. -/
theorem C4_annotation_append_witness :
    mergeContent [Region.other ("x"), Region.notes [("a")]]
        (entryText ⟨2024, 5, 6, 7, 8⟩) =
      [Region.other ("x"), Region.notes [("a"), entryText ⟨2024, 5, 6, 7, 8⟩]] := by
  have h := C4_annotation_append ⟨2024, 5, 6, 7, 8⟩
    [Region.other ("x"), Region.notes [("a")]] [Region.other ("x")] [] [("a")]
  exact h.2.2 rfl (by decide)

/-- C10: the content merge is strictly additive with no deduplication —
one invocation adds exactly one entry, and n invocations with the identical
generated entry text add exactly n entries. -/
theorem C10_additive_no_dedup (now : DateTime) (doc : List Region) (n : Nat) :
    totalEntries (mergeTaskContent now doc) = totalEntries doc + 1 ∧
    totalEntries ((mergeTaskContent now)^[n] doc) = totalEntries doc + n := by
  constructor
  · rw [mergeTaskContent, totalEntries_merge, totalEntries_normalize]
  · induction n with
    | zero => simp
    | succ m ih =>
        rw [Function.iterate_succ_apply', mergeTaskContent, totalEntries_merge,
          totalEntries_normalize, ih]
        omega

/-- C7: a summary longer than 45 code points yields a title of its first 42
code points followed by `"..."` (45 code points total); a summary of at most
45 code points is the title unchanged. -/
theorem C7_title_truncation (a : Option String) (c : DateTime) (k : String)
    (ls : List String) (p st sm : String) (u : DateTime) (addr : String) :
    (45 < sm.length →
      (mkTicket a c k ls p st sm u addr).title = strSlice sm 42 ++ ("...") ∧
      (mkTicket a c k ls p st sm u addr).title.length = 45) ∧
    (sm.length ≤ 45 → (mkTicket a c k ls p st sm u addr).title = sm) := by
  constructor
  · intro h
    have hgt : sm.length > 45 := h
    refine ⟨by simp [mkTicket, hgt], ?_⟩
    have hdata : 42 ≤ sm.data.length := by
      have : sm.length = sm.data.length := rfl
      omega
    have hdots : (("...") : String).length = 3 := rfl
    simp [mkTicket, hgt, strSlice, String.length_append, String.length_mk,
      List.length_take, hdots]
    omega
  · intro h
    have h2 : ¬ sm.length > 45 := by omega
    simp [mkTicket, h2]

/-- C7 witness: a 50-code-point summary gives a 45-code-point title, a
10-code-point summary is untouched. -/
theorem C7_title_truncation_witness :
    (mkTicket none ⟨2024, 1, 1, 0, 0⟩ ("K-1") [] ("P") ("S")
        ("01234567890123456789012345678901234567890123456789")
        ⟨2024, 1, 1, 0, 0⟩ ("u")).title.length = 45 ∧
    (mkTicket none ⟨2024, 1, 1, 0, 0⟩ ("K-1") [] ("P") ("S")
        ("0123456789") ⟨2024, 1, 1, 0, 0⟩ ("u")).title = ("0123456789") := by
  constructor
  · exact ((C7_title_truncation none ⟨2024, 1, 1, 0, 0⟩ ("K-1") [] ("P") ("S")
      ("01234567890123456789012345678901234567890123456789")
      ⟨2024, 1, 1, 0, 0⟩ ("u")).1 (by decide)).2
  · exact (C7_title_truncation none ⟨2024, 1, 1, 0, 0⟩ ("K-1") [] ("P") ("S")
      ("0123456789") ⟨2024, 1, 1, 0, 0⟩ ("u")).2 (by decide)

theorem queryLoop_eq (issues : List Issue) :
    ∀ acc : List Ticket, queryLoop acc issues = acc ++ issues.map newTicket := by
  induction issues with
  | nil => intro acc; simp [queryLoop]
  | cons i rest ih => intro acc; simp [queryLoop, ih]

/-- C8 amended: the `Ticket` dataclass makes `created` the comparison key
(`sort_index` is set to `created`), but the Run Driver hands the tickets to
the Reconciler in fetch order — `_query_jira` appends one ticket per fetched
issue without sorting. -/
theorem C8_fetch_order (issues : List Issue) :
    queryJiraLive issues = issues.map newTicket ∧
    (∀ i : Issue, (newTicket i).sortIndex = i.created) :=
  ⟨by simp [queryJiraLive, queryLoop_eq], fun _ => rfl⟩

/-- C8 counterexample: a fetched record set whose second issue was created
before its first — the ticket list handed to the Reconciler is not sorted
ascending by `created`. -/
theorem C8_counterexample :
    specSortedByCreated (queryJiraLive
      [ ⟨none, ⟨2024, 5, 2, 0, 0⟩, ("B-1"), [], ("Blocker"), ("New"), ("b"),
          ⟨2024, 5, 2, 0, 0⟩, ("u1")⟩,
        ⟨none, ⟨2024, 5, 1, 0, 0⟩, ("B-2"), [], ("Critical"), ("New"), ("a"),
          ⟨2024, 5, 1, 0, 0⟩, ("u2")⟩ ]) = false := by
  decide

/-- C2: when a ticket's lookup matches more than one non-done task, the run
aborts with an error naming the offending key; later tickets are not
processed, and the store keeps exactly the state the earlier tickets'
flushes committed. -/
theorem C2_ambiguity_abort (now : DateTime) (s s1 : Store) (pre post : List Ticket)
    (t : Ticket) (h1 : runPublish now s pre = (s1, none))
    (h2 : 1 < (findCandidates s1 t.key).length) :
    runPublish now s (pre ++ t :: post) =
      (s1, some (("Multiple Tasks matched for ") ++ t.key)) := by
  rw [runPublish_append, h1]
  simp only [runPublish, publishTicket_conflict now s1 t h2]

/-- C2 witness: two existing tasks carry the key `K-9`; the run processed no
earlier tickets, aborts on the `K-9` ticket and never reaches the following
`K-8` ticket. -/
theorem C2_ambiguity_abort_witness :
    runPublish ⟨2024, 1, 1, 0, 0⟩
        ⟨[⟨("T"), [], [(("jiraKey"), ("K-9"))], [], true, none, false⟩,
          ⟨("T"), [], [(("jiraKey"), ("K-9"))], [], true, none, false⟩], 0⟩
        ([] ++ mkTicket none ⟨2024, 1, 1, 0, 0⟩ ("K-9") [] ("P") ("S") ("s")
            ⟨2024, 1, 1, 0, 0⟩ ("u") ::
          [mkTicket none ⟨2024, 1, 1, 0, 0⟩ ("K-8") [] ("P") ("S") ("s")
            ⟨2024, 1, 1, 0, 0⟩ ("u")]) =
      (⟨[⟨("T"), [], [(("jiraKey"), ("K-9"))], [], true, none, false⟩,
          ⟨("T"), [], [(("jiraKey"), ("K-9"))], [], true, none, false⟩], 0⟩,
        some (("Multiple Tasks matched for ") ++ ("K-9"))) :=
  C2_ambiguity_abort ⟨2024, 1, 1, 0, 0⟩
    ⟨[⟨("T"), [], [(("jiraKey"), ("K-9"))], [], true, none, false⟩,
      ⟨("T"), [], [(("jiraKey"), ("K-9"))], [], true, none, false⟩], 0⟩
    ⟨[⟨("T"), [], [(("jiraKey"), ("K-9"))], [], true, none, false⟩,
      ⟨("T"), [], [(("jiraKey"), ("K-9"))], [], true, none, false⟩], 0⟩
    [] [mkTicket none ⟨2024, 1, 1, 0, 0⟩ ("K-8") [] ("P") ("S") ("s")
      ⟨2024, 1, 1, 0, 0⟩ ("u")]
    (mkTicket none ⟨2024, 1, 1, 0, 0⟩ ("K-9") [] ("P") ("S") ("s")
      ⟨2024, 1, 1, 0, 0⟩ ("u"))
    rfl (by decide)

/-- C9: a ticket on the Update path never modifies any note's title — the
store's title sequence is exactly what it was before the update. -/
theorem C9_update_preserves_titles (now : DateTime) (s : Store) (t : Ticket)
    (h : (findCandidates s t.key).length = 1) :
    ∃ s2, publishTicket now s t = Except.ok s2 ∧
      s2.notes.map Note.title = s.notes.map Note.title := by
  refine ⟨_, publishTicket_update now s t h, ?_⟩
  exact updateFirst_map_title _ _
    (fun n => by rw [shared_title]; exact (mergeNote_frame now n).1) s.notes

/-- C9 witness: one existing task matches `K-9`; after the update its title
is untouched. -/
theorem C9_update_preserves_titles_witness :
    ∃ s2, publishTicket ⟨2024, 2, 3, 4, 5⟩
        ⟨[⟨("T-title"), [], [(("jiraKey"), ("K-9"))], [], true, none, false⟩], 0⟩
        (mkTicket none ⟨2024, 1, 1, 0, 0⟩ ("K-9") [] ("P") ("S") ("s")
          ⟨2024, 1, 1, 0, 0⟩ ("u")) = Except.ok s2 ∧
      s2.notes.map Note.title =
        (⟨[⟨("T-title"), [], [(("jiraKey"), ("K-9"))], [], true, none, false⟩], 0⟩
          : Store).notes.map Note.title :=
  C9_update_preserves_titles ⟨2024, 2, 3, 4, 5⟩
    ⟨[⟨("T-title"), [], [(("jiraKey"), ("K-9"))], [], true, none, false⟩], 0⟩
    (mkTicket none ⟨2024, 1, 1, 0, 0⟩ ("K-9") [] ("P") ("S") ("s")
      ⟨2024, 1, 1, 0, 0⟩ ("u"))
    (by decide)

/-- C5: whenever a ticket is reconciled without a conflict, the touched task
carries the freshly rewritten `jira*` attribute set and at least one more
flush committed; with priority `Blocker`, status `Testing` and labels
`triaged, testing` the attributes read back `Blocker`, `Testing` and the
sorted colon-joined `testing:triaged`. -/
theorem C5_attribute_freshness (now : DateTime) (s : Store) (t : Ticket)
    (h : (findCandidates s t.key).length ≤ 1) :
    ∃ s2, publishTicket now s t = Except.ok s2 ∧
      s.flushes < s2.flushes ∧
      (∃ n ∈ s2.notes,
        getAttr n ("jiraStatus") = some t.status ∧
        getAttr n ("jiraPriority") = some t.priority ∧
        getAttr n ("jiraAssignee") = some (assigneeOrNA t.assignee) ∧
        getAttr n ("jiraUpdated") = some (fmtLabelDate t.updated) ∧
        getAttr n ("jiraLabels") =
          some (String.intercalate (":") (sortStrings t.labels))) ∧
      (t.priority = ("Blocker") → t.status = ("Testing") →
        t.labels = [("triaged"), ("testing")] →
        ∃ n ∈ s2.notes,
          getAttr n ("jiraPriority") = some ("Blocker") ∧
          getAttr n ("jiraStatus") = some ("Testing") ∧
          getAttr n ("jiraLabels") = some ("testing:triaged")) := by
  have main : ∃ s2, publishTicket now s t = Except.ok s2 ∧
      s.flushes < s2.flushes ∧
      ∃ n ∈ s2.notes,
        getAttr n ("jiraStatus") = some t.status ∧
        getAttr n ("jiraPriority") = some t.priority ∧
        getAttr n ("jiraAssignee") = some (assigneeOrNA t.assignee) ∧
        getAttr n ("jiraUpdated") = some (fmtLabelDate t.updated) ∧
        getAttr n ("jiraLabels") =
          some (String.intercalate (":") (sortStrings t.labels)) := by
    rcases hlen : (findCandidates s t.key).length with _ | m
    · have h0 : findCandidates s t.key = [] := List.length_eq_zero.mp hlen
      refine ⟨_, publishTicket_create now s t h0, by simp, ?_⟩
      refine ⟨sharedAttrUpdate t (cloneToToday (createTask now t)), by simp,
        shared_jiraStatus t _, shared_jiraPriority t _, shared_jiraAssignee t _,
        shared_jiraUpdated t _, shared_jiraLabels t _⟩
    · have h1 : (findCandidates s t.key).length = 1 := by omega
      refine ⟨_, publishTicket_update now s t h1, by simp, ?_⟩
      have hne : s.notes.filter (isCandidate t.key) ≠ [] := by
        intro hnil
        rw [show findCandidates s t.key = s.notes.filter (isCandidate t.key)
          from rfl, hnil] at h1
        simp at h1
      obtain ⟨n, _, _, hfmem⟩ := updateFirst_exists (isCandidate t.key)
        (fun n => sharedAttrUpdate t (mergeNote now n)) s.notes hne
      exact ⟨sharedAttrUpdate t (mergeNote now n), hfmem,
        shared_jiraStatus t _, shared_jiraPriority t _, shared_jiraAssignee t _,
        shared_jiraUpdated t _, shared_jiraLabels t _⟩
  obtain ⟨s2, hok, hfl, n, hn, a1, a2, a3, a4, a5⟩ := main
  refine ⟨s2, hok, hfl, ⟨n, hn, a1, a2, a3, a4, a5⟩, ?_⟩
  intro hp hs hl
  refine ⟨n, hn, ?_, ?_, ?_⟩
  · rw [a2, hp]
  · rw [a1, hs]
  · rw [a5, hl]
    decide

/-- C5 witness: reconciling the `TEST-1`-shaped ticket (Blocker / Testing /
labels `triaged, testing`) against an empty store. -/
theorem C5_attribute_freshness_witness :
    ∃ s2, publishTicket ⟨2024, 3, 3, 3, 3⟩ ⟨[], 0⟩
        (mkTicket (some ("tester")) ⟨2024, 1, 1, 0, 0⟩ ("TEST-1")
          [("triaged"), ("testing")] ("Blocker") ("Testing") ("short")
          ⟨2024, 1, 2, 0, 0⟩ ("url")) = Except.ok s2 ∧
      (⟨[], 0⟩ : Store).flushes < s2.flushes ∧
      (∃ n ∈ s2.notes,
        getAttr n ("jiraStatus") = some ("Testing") ∧
        getAttr n ("jiraPriority") = some ("Blocker") ∧
        getAttr n ("jiraAssignee") = some ("tester") ∧
        getAttr n ("jiraUpdated") = some (fmtLabelDate ⟨2024, 1, 2, 0, 0⟩) ∧
        getAttr n ("jiraLabels") =
          some (String.intercalate (":") (sortStrings [("triaged"), ("testing")]))) ∧
      (("Blocker") = ("Blocker" : String) → ("Testing") = ("Testing" : String) →
        [("triaged"), ("testing")] = [("triaged"), ("testing" : String)] →
        ∃ n ∈ s2.notes,
          getAttr n ("jiraPriority") = some ("Blocker") ∧
          getAttr n ("jiraStatus") = some ("Testing") ∧
          getAttr n ("jiraLabels") = some ("testing:triaged")) :=
  C5_attribute_freshness ⟨2024, 3, 3, 3, 3⟩ ⟨[], 0⟩
    (mkTicket (some ("tester")) ⟨2024, 1, 1, 0, 0⟩ ("TEST-1")
      [("triaged"), ("testing")] ("Blocker") ("Testing") ("short")
      ⟨2024, 1, 2, 0, 0⟩ ("url"))
    (by decide)

/-- C6: the dry-run flag does not make `publish` pure — it only swaps in the
three synthetic test tickets; the reconciliation loop still runs, creating
three notes and flushing six times against an initially empty store. -/
theorem C6_dry_run_mutates :
    (publishCmd ⟨2024, 3, 4, 5, 6⟩ true [] ⟨[], 0⟩).1.notes.length = 3 ∧
    (publishCmd ⟨2024, 3, 4, 5, 6⟩ true [] ⟨[], 0⟩).1.flushes = 6 ∧
    (publishCmd ⟨2024, 3, 4, 5, 6⟩ true [] ⟨[], 0⟩).2 = none :=
  ⟨rfl, rfl, rfl⟩

theorem runPublish_all_create (now : DateTime) :
    ∀ (ts : List Ticket) (s : Store),
      ts.Pairwise (fun a b => a.key ≠ b.key) →
      (∀ t ∈ ts, findCandidates s t.key = []) →
      ∃ s1, runPublish now s ts = (s1, none) ∧
        s1.notes.length = s.notes.length + ts.length ∧
        (∀ t ∈ ts, (findCandidates s1 t.key).length = 1) ∧
        (∀ k : String, (∀ t ∈ ts, t.key ≠ k) →
          findCandidates s1 k = findCandidates s k) := by
  intro ts
  induction ts with
  | nil =>
      intro s _ _
      exact ⟨s, rfl, by simp, by simp, fun _ _ => rfl⟩
  | cons t rest ih =>
      intro s hp hinit
      have h0 : findCandidates s t.key = [] := hinit t (List.mem_cons_self t rest)
      have hne : ∀ u ∈ rest, t.key ≠ u.key := (List.pairwise_cons.mp hp).1
      have hcreate := publishTicket_create now s t h0
      have hrest : ∀ u ∈ rest,
          findCandidates ⟨s.notes ++
            [sharedAttrUpdate t (cloneToToday (createTask now t))],
            s.flushes + 2⟩ u.key = [] := by
        intro u hu
        rw [findCandidates_snoc, hinit u (List.mem_cons_of_mem t hu),
          newTask_isCandidate_ne now t u.key (Ne.symm (hne u hu))]
        simp
      obtain ⟨s1, hrun, hlen, hone, hframe⟩ :=
        ih ⟨s.notes ++ [sharedAttrUpdate t (cloneToToday (createTask now t))],
          s.flushes + 2⟩ (List.pairwise_cons.mp hp).2 hrest
      refine ⟨s1, ?_, ?_, ?_, ?_⟩
      · simp only [runPublish, hcreate]
        exact hrun
      · rw [hlen]
        simp [List.length_append]
        omega
      · intro u hu
        rcases List.mem_cons.mp hu with h | h
        · subst h
          rw [hframe u.key (fun v hv => Ne.symm (hne v hv)),
            findCandidates_snoc, h0, newTask_isCandidate_self]
          simp
        · exact hone u h
      · intro k hk
        rw [hframe k (fun v hv => hk v (List.mem_cons_of_mem t hv)),
          findCandidates_snoc,
          newTask_isCandidate_ne now t k (Ne.symm (hk t (List.mem_cons_self t rest)))]
        simp

theorem runPublish_all_update (now : DateTime) :
    ∀ (ts : List Ticket) (s : Store),
      (∀ t ∈ ts, (findCandidates s t.key).length = 1) →
      ∃ s2, runPublish now s ts = (s2, none) ∧
        s2.notes.length = s.notes.length ∧
        (∀ k : String, (findCandidates s2 k).length = (findCandidates s k).length) := by
  intro ts
  induction ts with
  | nil =>
      intro s _
      exact ⟨s, rfl, rfl, fun _ => rfl⟩
  | cons t rest ih =>
      intro s hone
      have h1 := hone t (List.mem_cons_self t rest)
      have hupd := publishTicket_update now s t h1
      have hq : ∀ (n : Note) (k : String),
          isCandidate k (sharedAttrUpdate t (mergeNote now n)) = isCandidate k n := by
        intro n k
        rw [isCandidate_shared, isCandidate_mergeNote]
      have hpres : ∀ k : String,
          (findCandidates ⟨updateFirst (isCandidate t.key)
              (fun n => sharedAttrUpdate t (mergeNote now n)) s.notes,
              s.flushes + 1⟩ k).length
            = (findCandidates s k).length := by
        intro k
        exact updateFirst_filter_length _ _ _ (fun n => hq n k) s.notes
      obtain ⟨s2, hrun, hlen, hframe⟩ :=
        ih ⟨updateFirst (isCandidate t.key)
            (fun n => sharedAttrUpdate t (mergeNote now n)) s.notes, s.flushes + 1⟩
          (fun u hu => by rw [hpres u.key]; exact hone u (List.mem_cons_of_mem t hu))
      refine ⟨s2, ?_, ?_, ?_⟩
      · simp only [runPublish, hupd]
        exact hrun
      · rw [hlen]
        exact updateFirst_length _ _ s.notes
      · intro k
        rw [hframe k, hpres k]

/-- C3: reconciliation is create-idempotent — from a store with no match for
any of the (distinct) ticket keys, the first run succeeds and leaves exactly
one matching task per key, and the second run over the same ticket list
succeeds without creating any note, still leaving exactly one task per key
(it takes the Update path, not Create). -/
theorem C3_create_idempotent (now1 now2 : DateTime) (s : Store) (ts : List Ticket)
    (hkeys : ts.Pairwise (fun a b => a.key ≠ b.key))
    (hinit : ∀ t ∈ ts, findCandidates s t.key = []) :
    ∃ s1 s2, runPublish now1 s ts = (s1, none) ∧
      (∀ t ∈ ts, (findCandidates s1 t.key).length = 1) ∧
      runPublish now2 s1 ts = (s2, none) ∧
      s2.notes.length = s1.notes.length ∧
      (∀ t ∈ ts, (findCandidates s2 t.key).length = 1) := by
  obtain ⟨s1, hrun1, _, hone1, _⟩ := runPublish_all_create now1 ts s hkeys hinit
  obtain ⟨s2, hrun2, hlen2, hframe2⟩ := runPublish_all_update now2 ts s1 hone1
  exact ⟨s1, s2, hrun1, hone1, hrun2, hlen2,
    fun t ht => by rw [hframe2 t.key]; exact hone1 t ht⟩

/-- C3 witness: one ticket against an empty store, reconciled twice. -/
theorem C3_create_idempotent_witness :
    ∃ s1 s2, runPublish ⟨2024, 1, 1, 0, 0⟩ ⟨[], 0⟩
        [mkTicket none ⟨2024, 1, 1, 0, 0⟩ ("K-1") [] ("P") ("S") ("s")
          ⟨2024, 1, 1, 0, 0⟩ ("u")] = (s1, none) ∧
      (∀ t ∈ [mkTicket none ⟨2024, 1, 1, 0, 0⟩ ("K-1") [] ("P") ("S") ("s")
          ⟨2024, 1, 1, 0, 0⟩ ("u")], (findCandidates s1 t.key).length = 1) ∧
      runPublish ⟨2024, 1, 2, 0, 0⟩ s1
        [mkTicket none ⟨2024, 1, 1, 0, 0⟩ ("K-1") [] ("P") ("S") ("s")
          ⟨2024, 1, 1, 0, 0⟩ ("u")] = (s2, none) ∧
      s2.notes.length = s1.notes.length ∧
      (∀ t ∈ [mkTicket none ⟨2024, 1, 1, 0, 0⟩ ("K-1") [] ("P") ("S") ("s")
          ⟨2024, 1, 1, 0, 0⟩ ("u")], (findCandidates s2 t.key).length = 1) :=
  C3_create_idempotent ⟨2024, 1, 1, 0, 0⟩ ⟨2024, 1, 2, 0, 0⟩ ⟨[], 0⟩
    [mkTicket none ⟨2024, 1, 1, 0, 0⟩ ("K-1") [] ("P") ("S") ("s")
      ⟨2024, 1, 1, 0, 0⟩ ("u")]
    (by simp) (fun _ _ => rfl)

end JiraSLA
